import Mathlib

/-!
Verification of the buddy-compatibility scoring and candidate-ranking engine
of the Dots-app backend (`backend/services/buddying.py` and the buddy API
routes in `backend/api/buddies.py`).

The Python code is shallowly embedded: user rows (dicts) become the
`Profile` structure, Python floats become `ℚ`, Python `round(x, 2)` becomes
`round2`, and every Supabase read becomes an explicit `Except Unit _`
response value carried in a `RepoResponses` record (an `.error` response
models a raised exception caught by a `try/except` block in the source).
-/

namespace Buddying

/-- A user row as consumed by the scoring code.  `sports` and `goals` hold
the `id` field of each affiliation record attached to the user (`none` when
the record has no id), mirroring the dict lists built by the callers.
`age` uses Python truthiness (`None` and `0` are both falsy in
`if age1 and age2`), which the embedding keeps explicit. -/
structure Profile where
  id : Option Int
  sports : List (Option Int)
  goals : List (Option Int)
  location : Option String
  age : Option Int
  deriving DecidableEq

/-- `_extract_ids` on a list of affiliation dicts: collect the non-`None`
ids and deduplicate (`set(...)` in Python). -/
def extract_ids (items : List (Option Int)) : Finset Int :=
  (items.filterMap (fun x => x)).toFinset

/-- `len(common)/len(total) if total_sports else 0`: Jaccard ratio guarded
by truthiness of the union. -/
def jaccardPart (s1 s2 : Finset Int) : ℚ :=
  if (s1 ∪ s2).Nonempty then ((s1 ∩ s2).card : ℚ) / ((s1 ∪ s2).card : ℚ) else 0

/-- The sports block of `calculate_buddy_score` (lines 30-46), including the
source's third `elif len(user1_sports) > 0 and len(user2_sports) > 0`
partial-credit branch. -/
def sportsFactor (s1 s2 : Finset Int) : ℚ :=
  if s1.Nonempty ∧ s2.Nonempty then jaccardPart s1 s2 * 0.35
  else if ¬ s1.Nonempty ∧ ¬ s2.Nonempty then 0.175
  else if 0 < s1.card ∧ 0 < s2.card then
    if (s1 ∩ s2).Nonempty then 0.15 else 0
  else 0

/-- The goals block (lines 48-60): Jaccard scaled by 0.25, neutral 0.125
when both sides are empty, otherwise no contribution. -/
def goalsFactor (g1 g2 : Finset Int) : ℚ :=
  if g1.Nonempty ∧ g2.Nonempty then jaccardPart g1 g2 * 0.25
  else if ¬ g1.Nonempty ∧ ¬ g2.Nonempty then 0.125
  else 0

/-- `user.get("location", "").lower().strip() if user.get("location") else ""`. -/
def normLoc : Option String → String
  | none => ""
  | some s => if s = "" then "" else s.toLower.trim

/-- `loc.replace(',', '').replace(' ', '')`. -/
def stripCommaSpace (s : String) : String :=
  String.mk (s.data.filter (fun c => ¬ (c = ',' ∨ c = ' ')))

/-- `a` starts with the segment `b`? (helper for the substring test). -/
def startSeg : List Char → List Char → Bool
  | [], _ => true
  | _ :: _, [] => false
  | c :: cs, d :: ds => c = d && startSeg cs ds

/-- Python's `a in b` on strings: `a` occurs contiguously in `b`. -/
def hasSeg (a : List Char) : List Char → Bool
  | [] => startSeg a []
  | d :: ds => startSeg a (d :: ds) || hasSeg a ds

/-- The words the two locations share, keeping only words longer than 2
characters (lines 78-81). -/
def commonLongWords (l1 l2 : String) : Finset String :=
  ((l1.split Char.isWhitespace).toFinset ∩ (l2.split Char.isWhitespace).toFinset).filter
    (fun w => 2 < w.length)

/-- The location block applied to the two normalised location strings
(lines 66-85). -/
def locCompare (loc1 loc2 : String) : ℚ :=
  if loc1 ≠ "" ∧ loc2 ≠ "" then
    if loc1 = loc2 then 0.20
    else if stripCommaSpace loc1 = stripCommaSpace loc2 then 0.18
    else if hasSeg loc1.data loc2.data ∨ hasSeg loc2.data loc1.data then 0.12
    else if (commonLongWords loc1 loc2).Nonempty then 0.08
    else 0
  else 0.05

/-- Location proximity factor (lines 62-85). -/
def locationFactor (raw1 raw2 : Option String) : ℚ :=
  locCompare (normLoc raw1) (normLoc raw2)

/-- Age compatibility factor (lines 87-99); `if age1 and age2` is Python
truthiness, so a missing age or an age of 0 contributes nothing. -/
def ageFactor (a1 a2 : Option Int) : ℚ :=
  match a1, a2 with
  | some x, some y =>
    if x ≠ 0 ∧ y ≠ 0 then
      if (x - y).natAbs ≤ 3 then 0.10
      else if (x - y).natAbs ≤ 5 then 0.075
      else if (x - y).natAbs ≤ 10 then 0.05
      else if (x - y).natAbs ≤ 15 then 0.025
      else 0
    else 0
  | _, _ => 0

/-- The shared activity tier table (lines 105-114 and 121-130). -/
def actFormula (a b : Nat) : ℚ :=
  if 5 ≤ a ∧ 5 ≤ b then 0.10
  else if 3 ≤ a ∧ 3 ≤ b then 0.075
  else if a ≤ 2 ∧ b ≤ 2 then 0.05
  else if 10 < ((a : Int) - (b : Int)).natAbs then 0.02
  else 0.05

/-- The per-user approved-RSVP count query issued in the fallback branch of
the activity block.  `.error` models a raised exception, `ok none` a null
count (`result.count is None`). -/
abbrev SbQuery := Option Int → Except Unit (Option Nat)

/-- `event_counts.get(user.get("id"), 0)`: the count map was built with
non-`None` integer keys, so a missing id looks up to the default 0. -/
def lookupCount (m : Int → Nat) : Option Int → Nat
  | none => 0
  | some i => m i

/-- Activity level similarity (lines 101-132).  With a count map present
the tier table is applied to the two looked-up counts; otherwise, when a
Supabase client is available, the two per-user count queries run inside a
`try` whose `except` yields 0.05; with neither, the block is skipped. -/
def activityFactor (event_counts : Option (Int → Nat)) (supabase : Option SbQuery)
    (id1 id2 : Option Int) : ℚ :=
  match event_counts with
  | some m => actFormula (lookupCount m id1) (lookupCount m id2)
  | none =>
    match supabase with
    | none => 0
    | some q =>
      match q id1 with
      | .error _ => 0.05
      | .ok c1 =>
        match q id2 with
        | .error _ => 0.05
        | .ok c2 => actFormula (c1.getD 0) (c2.getD 0)

/-- Python `round(y, 2)`: round to two decimal places. -/
def round2 (y : ℚ) : ℚ := ((round (y * 100) : ℤ) : ℚ) / 100

/-- The four data factors that do not involve the activity lookup. -/
def baseFactors (user1 user2 : Profile) : ℚ :=
  sportsFactor (extract_ids user1.sports) (extract_ids user2.sports)
    + goalsFactor (extract_ids user1.goals) (extract_ids user2.goals)
    + locationFactor user1.location user2.location
    + ageFactor user1.age user2.age

/-- `calculate_buddy_score` (lines 19-134): weighted sum of the five
factors, returned as a percentage rounded to two decimal places. -/
def calculate_buddy_score (user1 user2 : Profile) (supabase : Option SbQuery)
    (event_counts : Option (Int → Nat)) : ℚ :=
  round2 ((baseFactors user1 user2 + activityFactor event_counts supabase user1.id user2.id) * 100)

/-- A row of the `user_sports` / `user_goals` batch query: the `user_id`
column and the joined affiliation record (`none` when the join produced no
record, i.e. a falsy `item.get("sports")`); the record itself carries an
optional `id`. -/
structure AffRow where
  user_id : Option Int
  aff : Option (Option Int)
  deriving DecidableEq

/-- The responses the Supabase collaborator gives to the batched reads of
one `find_potential_buddies` pass.  `.error` models a raised exception
caught by the corresponding `try/except` in the source.  `buddies1` /
`buddies2` are the `user2_id` / `user1_id` columns of the two relationship
queries; `users` is the row list of the candidate-pool query; `rsvps` is
the `user_id` column of the approved-RSVP rows; `rsvpCount` answers the
per-user count query used only by the scoring fallback. -/
structure RepoResponses where
  buddies1 : Except Unit (List Int)
  buddies2 : Except Unit (List Int)
  users : Except Unit (List Profile)
  sports : Except Unit (List AffRow)
  goals : Except Unit (List AffRow)
  rsvps : Except Unit (List (Option Int))
  rsvpCount : SbQuery

/-- Lines 152-164: collect existing buddy ids from the two relationship
queries; both run inside one `try`, so a failure of the first leaves the
set empty and a failure of the second keeps only the first query's ids. -/
def existingIds (repo : RepoResponses) : Finset Int :=
  match repo.buddies1 with
  | .error _ => ∅
  | .ok l1 =>
    match repo.buddies2 with
    | .error _ => l1.toFinset
    | .ok l2 => l1.toFinset ∪ l2.toFinset

/-- Lines 168-177: the candidate-pool rows; a failed fetch degrades to an
empty pool. -/
def poolUsers (repo : RepoResponses) : List Profile :=
  match repo.users with
  | .error _ => []
  | .ok l => l

/-- `u.get("id") not in existing_buddy_user_ids` (line 172); a row with no
id passes the check (`None` is not among the collected integer ids). -/
def keepNotExisting (existing : Finset Int) (u : Profile) : Bool :=
  match u.id with
  | some i => ¬ i ∈ existing
  | none => true

/-- Lines 170-175: the client-side relationship filter is only applied when
some existing ids were collected (`if existing_buddy_user_ids:`). -/
def eligibleUsers (repo : RepoResponses) : List Profile :=
  if (existingIds repo).Nonempty then
    (poolUsers repo).filter (keepNotExisting (existingIds repo))
  else poolUsers repo

/-- Lines 184-203: group the affiliation rows by `user_id`, keeping only
rows with a non-`None` `user_id` and a truthy joined record, in row order;
a failed fetch or a row-less user yields `[]`. -/
def affOf (resp : Except Unit (List AffRow)) (uid : Option Int) : List (Option Int) :=
  match resp, uid with
  | .ok rows, some u =>
    rows.filterMap (fun r =>
      match r.user_id, r.aff with
      | some v, some a => if v = u then some a else none
      | _, _ => none)
  | _, _ => []

/-- Lines 209-218: per-user approved-RSVP tallies; a failed fetch leaves
the count map empty (every lookup defaults to 0). -/
def countsFrom (resp : Except Unit (List (Option Int))) : Int → Nat :=
  match resp with
  | .error _ => fun _ => 0
  | .ok rows => fun i => rows.count (some i)

/-- Lines 205-207: overwrite each candidate's `sports` and `goals` with the
batch-fetched affiliation records.  (The source also stashes a
`_event_count` display key on each dict; it carries no scoring content and
is not part of the embedded profile.) -/
def enrichedUsers (repo : RepoResponses) : List Profile :=
  (eligibleUsers repo).map (fun u =>
    { u with sports := affOf repo.sports u.id, goals := affOf repo.goals u.id })

/-- A `{"user": ..., "score": ...}` entry of the ranked result. -/
structure ScoredBuddy where
  user : Profile
  score : ℚ
  deriving DecidableEq

/-- Lines 220-228: score every enriched candidate against the subject,
passing the batch count map (always a dict here, possibly empty). -/
def scoredBuddies (user : Profile) (repo : RepoResponses) : List ScoredBuddy :=
  (enrichedUsers repo).map (fun pu =>
    ⟨pu, calculate_buddy_score user pu (some repo.rsvpCount) (some (countsFrom repo.rsvps))⟩)

/-- `a` should come before (or stay before) `b` in the descending sort. -/
def scoreGE (a b : ScoredBuddy) : Prop := b.score ≤ a.score

instance : DecidableRel scoreGE := fun a b => inferInstanceAs (Decidable (b.score ≤ a.score))

instance : IsTotal ScoredBuddy scoreGE := ⟨fun a b => le_total b.score a.score⟩

instance : IsTrans ScoredBuddy scoreGE := ⟨fun _ _ _ h1 h2 => le_trans h2 h1⟩

/-- Line 231: `buddies.sort(key=lambda x: x["score"], reverse=True)` — a
stable descending sort.  Python's stable sort is extensionally determined
by the order and stability, so the stable insertion sort is the same
function. -/
def rankedBuddies (user : Profile) (repo : RepoResponses) : List ScoredBuddy :=
  List.insertionSort scoreGE (scoredBuddies user repo)

/-- Line 167: the cap passed to the candidate-pool query (`limit + 20` when
a truthy limit is given, else 300).  The cap is applied by the collaborator
when producing `RepoResponses.users`. -/
def fetchLimit (limit : Option Nat) : Nat :=
  match limit with
  | some k => if k ≠ 0 then k + 20 else 300
  | none => 300

/-- `find_potential_buddies` (lines 137-236).  `min_score` is accepted but
never read.  A falsy subject id (`None` or `0`) short-circuits to `[]`, as
does an id-less eligible pool (`if not potential_ids`); a truthy `limit`
truncates the sorted list. -/
def find_potential_buddies (user : Profile) (repo : RepoResponses) (limit : Option Nat)
    (min_score : ℚ) : List ScoredBuddy :=
  match user.id with
  | none => []
  | some uid =>
    if uid = 0 then []
    else if (eligibleUsers repo).filterMap (fun u => u.id) = [] then []
    else
      match limit with
      | some k => if k ≠ 0 then (rankedBuddies user repo).take k else rankedBuddies user repo
      | none => rankedBuddies user repo

/-- The failure signals of the `create_buddy` route (`api/buddies.py`),
in the order the route can raise them. -/
inductive CreateErr where
  | userIdNotFound
  | selfBuddy
  | userNotFound
  | buddyExists
  | insertFailed
  deriving DecidableEq

/-- A row of the `buddies` table as returned by the insert. -/
structure BuddyRow where
  id : Int
  user1_id : Int
  user2_id : Int
  match_score : Option ℚ
  status : String
  deriving DecidableEq

/-- The responses the collaborator gives to the reads and the insert of one
`create_buddy` request. -/
structure CreateRepo where
  user2row : Except Unit (Option Profile)
  existing1 : Except Unit (List BuddyRow)
  existing2 : Except Unit (List BuddyRow)
  rsvpCount : SbQuery
  insert : Except Unit (List BuddyRow)

/-- `create_buddy` (api/buddies.py lines 164-260): reject a falsy caller
id, then a self-request (`user2_id == user_id`), then fetch and validate
the target user, check both relationship directions for a duplicate (a
failed duplicate check is ignored, and the second query only runs after the
first succeeded), score the pair (the count map is absent here, so scoring
may use the per-user fallback queries), and insert.  The datetime
plumbing of the HTTP response is glue and is not embedded. -/
def create_buddy (current_user : Profile) (user2_id : Int) (repo : CreateRepo) :
    Except CreateErr BuddyRow :=
  match current_user.id with
  | none => .error CreateErr.userIdNotFound
  | some user_id =>
    if user_id = 0 then .error CreateErr.userIdNotFound
    else if user2_id = user_id then .error CreateErr.selfBuddy
    else
      match repo.user2row with
      | .error _ => .error CreateErr.userNotFound
      | .ok none => .error CreateErr.userNotFound
      | .ok (some user2_data) =>
        let dup : Bool :=
          match repo.existing1, repo.existing2 with
          | .ok l1, .ok l2 => l1 ≠ [] ∨ l2 ≠ []
          | _, _ => false
        if dup then .error CreateErr.buddyExists
        else
          let _score := calculate_buddy_score current_user user2_data (some repo.rsvpCount) none
          match repo.insert with
          | .error _ => .error CreateErr.insertFailed
          | .ok [] => .error CreateErr.insertFailed
          | .ok (row :: _) => .ok row

/-! ### Symmetry of the scoring factors -/

theorem jaccardPart_comm (s1 s2 : Finset Int) : jaccardPart s1 s2 = jaccardPart s2 s1 := by
  unfold jaccardPart
  rw [Finset.union_comm, Finset.inter_comm]

theorem sportsFactor_comm (s1 s2 : Finset Int) : sportsFactor s1 s2 = sportsFactor s2 s1 := by
  unfold sportsFactor
  rw [jaccardPart_comm, Finset.inter_comm]
  exact if_congr and_comm rfl (if_congr and_comm rfl (if_congr and_comm rfl rfl))

theorem goalsFactor_comm (g1 g2 : Finset Int) : goalsFactor g1 g2 = goalsFactor g2 g1 := by
  unfold goalsFactor
  rw [jaccardPart_comm]
  exact if_congr and_comm rfl (if_congr and_comm rfl rfl)

theorem commonLongWords_comm (l1 l2 : String) : commonLongWords l1 l2 = commonLongWords l2 l1 := by
  unfold commonLongWords
  rw [Finset.inter_comm]

theorem locCompare_comm (l1 l2 : String) : locCompare l1 l2 = locCompare l2 l1 := by
  unfold locCompare
  rw [commonLongWords_comm]
  exact if_congr and_comm
    (if_congr eq_comm rfl (if_congr eq_comm rfl (if_congr or_comm rfl rfl))) rfl

theorem locationFactor_comm (r1 r2 : Option String) :
    locationFactor r1 r2 = locationFactor r2 r1 :=
  locCompare_comm _ _

theorem ageFactor_comm (a1 a2 : Option Int) : ageFactor a1 a2 = ageFactor a2 a1 := by
  cases a1 with
  | none => cases a2 <;> rfl
  | some x =>
    cases a2 with
    | none => rfl
    | some y =>
      simp only [ageFactor]
      have h : (x - y).natAbs = (y - x).natAbs := by omega
      rw [h]
      exact if_congr and_comm rfl rfl

theorem actFormula_comm (a b : Nat) : actFormula a b = actFormula b a := by
  unfold actFormula
  split_ifs <;> first | rfl | omega

theorem activityFactor_comm (ec : Option (Int → Nat)) (sb : Option SbQuery)
    (id1 id2 : Option Int) : activityFactor ec sb id1 id2 = activityFactor ec sb id2 id1 := by
  cases ec with
  | some m => exact actFormula_comm _ _
  | none =>
    cases sb with
    | none => rfl
    | some q =>
      simp only [activityFactor]
      cases h1 : q id1 with
      | error e1 => cases h2 : q id2 <;> simp only [h1, h2]
      | ok c1 =>
        cases h2 : q id2 with
        | error e2 => simp only [h1, h2]
        | ok c2 => simp only [h1, h2]; exact actFormula_comm _ _

/-- C2: `calculate_buddy_score(A, B, event_counts)` equals
`calculate_buddy_score(B, A, event_counts)` for every pair of profiles and
every count map — each of the sports, goals, location, age and activity
factors is symmetric in the two profiles. -/
theorem calculate_buddy_score_symm (u1 u2 : Profile) (sb : Option SbQuery)
    (ec : Option (Int → Nat)) :
    calculate_buddy_score u1 u2 sb ec = calculate_buddy_score u2 u1 sb ec := by
  unfold calculate_buddy_score baseFactors
  rw [sportsFactor_comm, goalsFactor_comm, locationFactor_comm, ageFactor_comm,
    activityFactor_comm]

/-! ### Range of the scoring factors -/

theorem jaccardPart_nonneg (s1 s2 : Finset Int) : 0 ≤ jaccardPart s1 s2 := by
  unfold jaccardPart
  split
  · exact div_nonneg (by positivity) (by positivity)
  · exact le_refl 0

theorem jaccardPart_le_one (s1 s2 : Finset Int) : jaccardPart s1 s2 ≤ 1 := by
  unfold jaccardPart
  split_ifs with h
  · have hpos : (0 : ℚ) < ((s1 ∪ s2).card : ℚ) := by
      exact_mod_cast Finset.card_pos.mpr h
    rw [div_le_one hpos]
    have hsub : s1 ∩ s2 ⊆ s1 ∪ s2 := by
      intro x hx
      exact Finset.mem_union_left _ (Finset.mem_of_mem_inter_left hx)
    exact_mod_cast Finset.card_le_card hsub
  · norm_num

theorem sportsFactor_nonneg (s1 s2 : Finset Int) : 0 ≤ sportsFactor s1 s2 := by
  unfold sportsFactor
  have h := jaccardPart_nonneg s1 s2
  split_ifs
  · exact mul_nonneg h (by norm_num)
  · norm_num
  · norm_num
  · norm_num
  · norm_num

theorem sportsFactor_le (s1 s2 : Finset Int) : sportsFactor s1 s2 ≤ 0.35 := by
  unfold sportsFactor
  have h := jaccardPart_le_one s1 s2
  split_ifs
  · have := mul_le_mul_of_nonneg_right h (show (0:ℚ) ≤ 0.35 by norm_num)
    simpa using this
  · norm_num
  · norm_num
  · norm_num
  · norm_num

theorem goalsFactor_nonneg (g1 g2 : Finset Int) : 0 ≤ goalsFactor g1 g2 := by
  unfold goalsFactor
  have h := jaccardPart_nonneg g1 g2
  split_ifs
  · exact mul_nonneg h (by norm_num)
  · norm_num
  · norm_num

theorem goalsFactor_le (g1 g2 : Finset Int) : goalsFactor g1 g2 ≤ 0.25 := by
  unfold goalsFactor
  have h := jaccardPart_le_one g1 g2
  split_ifs
  · have := mul_le_mul_of_nonneg_right h (show (0:ℚ) ≤ 0.25 by norm_num)
    simpa using this
  · norm_num
  · norm_num

theorem locationFactor_nonneg (r1 r2 : Option String) : 0 ≤ locationFactor r1 r2 := by
  unfold locationFactor locCompare
  split_ifs <;> norm_num

theorem locationFactor_le (r1 r2 : Option String) : locationFactor r1 r2 ≤ 0.20 := by
  unfold locationFactor locCompare
  split_ifs <;> norm_num

theorem ageFactor_nonneg (a1 a2 : Option Int) : 0 ≤ ageFactor a1 a2 := by
  cases a1 <;> cases a2 <;> simp only [ageFactor] <;> try norm_num
  split_ifs <;> norm_num

theorem ageFactor_le (a1 a2 : Option Int) : ageFactor a1 a2 ≤ 0.10 := by
  cases a1 <;> cases a2 <;> simp only [ageFactor] <;> try norm_num
  split_ifs <;> norm_num

theorem actFormula_nonneg (a b : Nat) : 0 ≤ actFormula a b := by
  unfold actFormula
  split_ifs <;> norm_num

theorem actFormula_le (a b : Nat) : actFormula a b ≤ 0.10 := by
  unfold actFormula
  split_ifs <;> norm_num

theorem activityFactor_nonneg (ec : Option (Int → Nat)) (sb : Option SbQuery)
    (id1 id2 : Option Int) : 0 ≤ activityFactor ec sb id1 id2 := by
  cases ec with
  | some m => exact actFormula_nonneg _ _
  | none =>
    cases sb with
    | none => norm_num [activityFactor]
    | some q =>
      simp only [activityFactor]
      cases q id1 with
      | error e1 => norm_num
      | ok c1 =>
        cases q id2 with
        | error e2 => norm_num
        | ok c2 => exact actFormula_nonneg _ _

theorem activityFactor_le (ec : Option (Int → Nat)) (sb : Option SbQuery)
    (id1 id2 : Option Int) : activityFactor ec sb id1 id2 ≤ 0.10 := by
  cases ec with
  | some m => exact actFormula_le _ _
  | none =>
    cases sb with
    | none => norm_num [activityFactor]
    | some q =>
      simp only [activityFactor]
      cases q id1 with
      | error e1 => norm_num
      | ok c1 =>
        cases q id2 with
        | error e2 => norm_num
        | ok c2 => exact actFormula_le _ _

/-! ### Rounding -/

theorem round_le_round_of_le {x y : ℚ} (h : x ≤ y) : round x ≤ round y := by
  rw [round_eq, round_eq]
  exact Int.floor_mono (by linarith)

theorem round2_nonneg {y : ℚ} (h : 0 ≤ y) : 0 ≤ round2 y := by
  unfold round2
  have h1 : (0 : ℤ) ≤ round (y * 100) := by
    have h2 := round_le_round_of_le (show (0:ℚ) ≤ y * 100 by nlinarith)
    simpa using h2
  have h3 : (0 : ℚ) ≤ ((round (y * 100) : ℤ) : ℚ) := by exact_mod_cast h1
  positivity

theorem round2_le_100 {y : ℚ} (h : y ≤ 100) : round2 y ≤ 100 := by
  unfold round2
  have h1 : round (y * 100) ≤ round ((10000 : ℤ) : ℚ) :=
    round_le_round_of_le (by push_cast; linarith)
  rw [round_intCast] at h1
  rw [div_le_iff₀ (by norm_num : (0:ℚ) < 100)]
  calc ((round (y * 100) : ℤ) : ℚ) ≤ ((10000 : ℤ) : ℚ) := by exact_mod_cast h1
    _ = 100 * 100 := by norm_num

theorem round2_round2 (y : ℚ) : round2 (round2 y) = round2 y := by
  unfold round2
  rw [div_mul_cancel₀ _ (by norm_num : (100:ℚ) ≠ 0), round_intCast]

/-- C1: for every pair of profiles (whatever data is present or absent) and
every count map / fallback client, `calculate_buddy_score` lies in
[0, 100] and is a fixed point of rounding to two decimal places. -/
theorem calculate_buddy_score_range (u1 u2 : Profile) (sb : Option SbQuery)
    (ec : Option (Int → Nat)) :
    0 ≤ calculate_buddy_score u1 u2 sb ec ∧ calculate_buddy_score u1 u2 sb ec ≤ 100 ∧
      round2 (calculate_buddy_score u1 u2 sb ec) = calculate_buddy_score u1 u2 sb ec := by
  have hs0 := sportsFactor_nonneg (extract_ids u1.sports) (extract_ids u2.sports)
  have hs1 := sportsFactor_le (extract_ids u1.sports) (extract_ids u2.sports)
  have hg0 := goalsFactor_nonneg (extract_ids u1.goals) (extract_ids u2.goals)
  have hg1 := goalsFactor_le (extract_ids u1.goals) (extract_ids u2.goals)
  have hl0 := locationFactor_nonneg u1.location u2.location
  have hl1 := locationFactor_le u1.location u2.location
  have ha0 := ageFactor_nonneg u1.age u2.age
  have ha1 := ageFactor_le u1.age u2.age
  have hc0 := activityFactor_nonneg ec sb u1.id u2.id
  have hc1 := activityFactor_le ec sb u1.id u2.id
  have hsum0 : 0 ≤ (baseFactors u1 u2 + activityFactor ec sb u1.id u2.id) * 100 := by
    unfold baseFactors
    nlinarith
  have hsum1 : (baseFactors u1 u2 + activityFactor ec sb u1.id u2.id) * 100 ≤ 100 := by
    unfold baseFactors
    nlinarith
  unfold calculate_buddy_score
  exact ⟨round2_nonneg hsum0, round2_le_100 hsum1, round2_round2 _⟩

/-! ### The dead partial-credit sports branch -/

/-- Modelled from the spec: the effective sports rule of §4.1 — Jaccard
when both sets are non-empty, the neutral 0.175 when both are empty,
otherwise 0, with no partial-credit case. -/
def sportsFactorSpec (s1 s2 : Finset Int) : ℚ :=
  if s1.Nonempty ∧ s2.Nonempty then ((s1 ∩ s2).card : ℚ) / ((s1 ∪ s2).card : ℚ) * 0.35
  else if s1 = ∅ ∧ s2 = ∅ then 0.175
  else 0

/-- C10: the third branch of the sports block (the `elif len(...) > 0 and
len(...) > 0` partial-credit path adding 0.15) is unreachable: the block is
extensionally the three-case rule — Jaccard when both sets are non-empty
(the inner truthiness guard on the union is then also redundant), the
neutral 0.175 when both are empty, and 0 when exactly one is empty. -/
theorem sportsFactor_eq_spec (s1 s2 : Finset Int) :
    sportsFactor s1 s2 = sportsFactorSpec s1 s2 := by
  rcases s1.eq_empty_or_nonempty with h1 | h1 <;> rcases s2.eq_empty_or_nonempty with h2 | h2
  · subst h1; subst h2
    simp [sportsFactor, sportsFactorSpec, Finset.not_nonempty_empty]
  · subst h1
    have h2' : ¬ s2 = ∅ := by
      intro hc
      rw [hc] at h2
      exact Finset.not_nonempty_empty h2
    simp [sportsFactor, sportsFactorSpec, Finset.not_nonempty_empty, h2, h2']
  · subst h2
    have h1' : ¬ s1 = ∅ := by
      intro hc
      rw [hc] at h1
      exact Finset.not_nonempty_empty h1
    simp [sportsFactor, sportsFactorSpec, Finset.not_nonempty_empty, h1, h1']
  · have hu : (s1 ∪ s2).Nonempty := by
      obtain ⟨x, hx⟩ := h1
      exact ⟨x, Finset.mem_union_left _ hx⟩
    simp [sportsFactor, sportsFactorSpec, jaccardPart, h1, h2, hu]

/-! ### The neutral-defaults score -/

/-- C5 (amended): with *empty* sport sets on both sides, empty goal sets on
both sides, no location, no age and no activity data, the score is exactly
35.0 — 17.5 from the sports neutral, 12.5 from the goals neutral, 5.0 from
the location neutral; age and activity contribute 0. -/
theorem calculate_buddy_score_neutral (u1 u2 : Profile)
    (hs1 : extract_ids u1.sports = ∅) (hs2 : extract_ids u2.sports = ∅)
    (hg1 : extract_ids u1.goals = ∅) (hg2 : extract_ids u2.goals = ∅)
    (hl1 : normLoc u1.location = "") (hl2 : normLoc u2.location = "")
    (ha1 : u1.age = none) (ha2 : u2.age = none) :
    calculate_buddy_score u1 u2 none none = 35 := by
  unfold calculate_buddy_score baseFactors locationFactor
  rw [hs1, hs2, hg1, hg2, hl1, hl2, ha1, ha2]
  have h1 : sportsFactor ∅ ∅ = 0.175 := by
    simp [sportsFactor, Finset.not_nonempty_empty]
  have h2 : goalsFactor ∅ ∅ = 0.125 := by
    simp [goalsFactor, Finset.not_nonempty_empty]
  have h3 : locCompare "" "" = 0.05 := by simp [locCompare]
  have h4 : ageFactor none none = 0 := rfl
  have h5 : activityFactor none none u1.id u2.id = 0 := rfl
  rw [h1, h2, h3, h4, h5]
  unfold round2
  norm_num [round_eq]

theorem calculate_buddy_score_neutral_witness :
    calculate_buddy_score ⟨some 1, [], [], none, none⟩ ⟨some 2, [], [], none, none⟩
      none none = 35 :=
  calculate_buddy_score_neutral ⟨some 1, [], [], none, none⟩ ⟨some 2, [], [], none, none⟩
    rfl rfl rfl rfl rfl rfl rfl rfl

/-- C5 counterexample: the two sport sets {10} and {20} are disjoint (and
the goal sets, locations, ages and activity data are all absent), yet the
score is 17.5, not the claimed 35.0 — disjoint *non-empty* sports take the
Jaccard branch and contribute 0, not the 0.175 neutral. -/
theorem calculate_buddy_score_disjoint_cex :
    extract_ids [some 10] ∩ extract_ids [some 20] = ∅ ∧
      calculate_buddy_score ⟨some 1, [some 10], [], none, none⟩
        ⟨some 2, [some 20], [], none, none⟩ none none = 17.5 ∧
      (17.5 : ℚ) ≠ 35 := by
  refine ⟨by decide, ?_, by norm_num⟩
  unfold calculate_buddy_score baseFactors locationFactor
  have e1 : extract_ids [some 10] = {10} := by decide
  have e2 : extract_ids [some 20] = {20} := by decide
  have hs : sportsFactor (extract_ids [some 10]) (extract_ids [some 20]) = 0 := by
    rw [e1, e2]
    unfold sportsFactor jaccardPart
    rw [if_pos ⟨Finset.singleton_nonempty (10:Int), Finset.singleton_nonempty (20:Int)⟩]
    have hc1 : (({10} : Finset Int) ∩ {20}).card = 0 := by decide
    have hc2 : (({10} : Finset Int) ∪ {20}).card = 2 := by decide
    have hu : (({10} : Finset Int) ∪ {20}).Nonempty := by
      rw [← Finset.card_pos, hc2]; norm_num
    rw [if_pos hu, hc1, hc2]
    norm_num
  have hg : goalsFactor (extract_ids []) (extract_ids []) = 0.125 := by
    simp [goalsFactor, extract_ids, Finset.not_nonempty_empty]
  have h3 : locCompare (normLoc none) (normLoc none) = 0.05 := by
    simp [locCompare, normLoc]
  have h4 : ageFactor none none = 0 := rfl
  rw [hs, hg, h3, h4]
  have h5 : activityFactor none none (some 1) (some 2) = 0 := rfl
  rw [h5]
  unfold round2
  norm_num [round_eq]

/-! ### Shape of the ranking output -/

theorem mem_ranked_iff (e : ScoredBuddy) (user : Profile) (repo : RepoResponses) :
    e ∈ rankedBuddies user repo ↔ e ∈ scoredBuddies user repo := by
  unfold rankedBuddies
  simp

/-- Every run of `find_potential_buddies` returns `[]`, the full sorted
list, or a truncation of the sorted list. -/
theorem find_shape (user : Profile) (repo : RepoResponses) (limit : Option Nat) (ms : ℚ) :
    find_potential_buddies user repo limit ms = [] ∨
      find_potential_buddies user repo limit ms = rankedBuddies user repo ∨
      ∃ n, find_potential_buddies user repo limit ms = (rankedBuddies user repo).take n := by
  unfold find_potential_buddies
  split
  · exact Or.inl rfl
  · split
    · exact Or.inl rfl
    · split
      · exact Or.inl rfl
      · split
        · split
          · exact Or.inr (Or.inr ⟨_, rfl⟩)
          · exact Or.inr (Or.inl rfl)
        · exact Or.inr (Or.inl rfl)

theorem mem_find (e : ScoredBuddy) (user : Profile) (repo : RepoResponses)
    (limit : Option Nat) (ms : ℚ) (h : e ∈ find_potential_buddies user repo limit ms) :
    e ∈ scoredBuddies user repo := by
  rcases find_shape user repo limit ms with hf | hf | ⟨n, hf⟩ <;> rw [hf] at h
  · exact absurd h (List.not_mem_nil e)
  · exact (mem_ranked_iff e user repo).mp h
  · exact (mem_ranked_iff e user repo).mp (List.mem_of_mem_take h)

theorem mem_scored (e : ScoredBuddy) (user : Profile) (repo : RepoResponses)
    (h : e ∈ scoredBuddies user repo) :
    ∃ u0 ∈ eligibleUsers repo,
      e = ⟨{ u0 with sports := affOf repo.sports u0.id, goals := affOf repo.goals u0.id },
        calculate_buddy_score user
          { u0 with sports := affOf repo.sports u0.id, goals := affOf repo.goals u0.id }
          (some repo.rsvpCount) (some (countsFrom repo.rsvps))⟩ := by
  unfold scoredBuddies enrichedUsers at h
  rw [List.map_map, List.mem_map] at h
  obtain ⟨u0, hu0, he⟩ := h
  exact ⟨u0, hu0, he.symm⟩

theorem eligible_not_existing (u0 : Profile) (repo : RepoResponses)
    (h : u0 ∈ eligibleUsers repo) (i : Int) (hid : u0.id = some i) :
    ¬ i ∈ existingIds repo := by
  intro hmem
  unfold eligibleUsers at h
  by_cases hne : (existingIds repo).Nonempty
  · rw [if_pos hne] at h
    have h2 := (List.mem_filter.mp h).2
    unfold keepNotExisting at h2
    rw [hid] at h2
    simp at h2
    exact h2 hmem
  · exact hne ⟨i, hmem⟩

/-- C3 (amended): whenever the two relationship fetches succeed, no entry
of the result carries an id that occurs in either relationship direction —
even when the candidate pool contains such ids, since this exclusion is
re-checked client-side.  (The subject's own id is *not* re-checked
client-side; see the counterexample.) -/
theorem find_excludes_existing (user : Profile) (repo : RepoResponses)
    (limit : Option Nat) (ms : ℚ) (l1 l2 : List Int) (i : Int)
    (h1 : repo.buddies1 = Except.ok l1) (h2 : repo.buddies2 = Except.ok l2)
    (hi : some i ∈ (find_potential_buddies user repo limit ms).map (fun e => e.user.id)) :
    ¬ i ∈ l1 ∧ ¬ i ∈ l2 := by
  rw [List.mem_map] at hi
  obtain ⟨e, he, hei⟩ := hi
  obtain ⟨u0, hu0, heq⟩ := mem_scored e user repo (mem_find e user repo limit ms he)
  have hid : u0.id = some i := by
    rw [heq] at hei
    exact hei
  have hnot := eligible_not_existing u0 repo hu0 i hid
  have hE : existingIds repo = l1.toFinset ∪ l2.toFinset := by
    unfold existingIds
    rw [h1, h2]
  rw [hE] at hnot
  constructor
  · intro hc
    exact hnot (Finset.mem_union_left _ (List.mem_toFinset.mpr hc))
  · intro hc
    exact hnot (Finset.mem_union_right _ (List.mem_toFinset.mpr hc))

theorem find_excludes_existing_witness :
    some (7 : Int) ∈ (find_potential_buddies ⟨some 1, [], [], none, none⟩
        ⟨Except.ok [5], Except.ok [6],
          Except.ok [⟨some 5, [], [], none, none⟩, ⟨some 7, [], [], none, none⟩],
          Except.ok [], Except.ok [], Except.ok [], fun _ => Except.error ()⟩
        none 0).map (fun e => e.user.id) ∧
      ¬ (7 : Int) ∈ [(5 : Int)] ∧ ¬ (7 : Int) ∈ [(6 : Int)] :=
  ⟨by decide,
    find_excludes_existing ⟨some 1, [], [], none, none⟩
      ⟨Except.ok [5], Except.ok [6],
        Except.ok [⟨some 5, [], [], none, none⟩, ⟨some 7, [], [], none, none⟩],
        Except.ok [], Except.ok [], Except.ok [], fun _ => Except.error ()⟩
      none 0 [5] [6] 7 rfl rfl (by decide)⟩

/-- C3 counterexample: the subject (id 1) appears in the candidate pool the
repository returns, no relationship excludes it, and the returned ranking
contains the subject itself — the subject's id is excluded only by the
repository-side `neq` filter, not client-side. -/
theorem find_returns_subject_cex :
    (find_potential_buddies ⟨some 1, [], [], none, none⟩
      ⟨Except.ok [], Except.ok [], Except.ok [⟨some 1, [], [], none, none⟩],
        Except.ok [], Except.ok [], Except.ok [], fun _ => Except.error ()⟩
      none 0).map (fun e => e.user.id) = [some 1] := by decide

/-- C4 (amended): every run's output is sorted non-increasing by score,
and for every limit k ≥ 1 the limited run equals the first k entries
(`take k`) of the unlimited run, so it has exactly `min k n` entries where
n is the number of ranked candidates.  A limit of 0 is falsy in Python
(`if limit:`) and behaves like no limit — see the counterexample. -/
theorem find_sorted_and_take (user : Profile) (repo : RepoResponses)
    (limit : Option Nat) (ms : ℚ) (k : Nat) (hk : 1 ≤ k) :
    List.Pairwise scoreGE (find_potential_buddies user repo limit ms) ∧
      find_potential_buddies user repo (some k) ms
        = (find_potential_buddies user repo none ms).take k ∧
      (find_potential_buddies user repo (some k) ms).length
        = min k (find_potential_buddies user repo none ms).length := by
  have hk0 : k ≠ 0 := by omega
  have hranked : List.Pairwise scoreGE (rankedBuddies user repo) :=
    List.sorted_insertionSort scoreGE (scoredBuddies user repo)
  have hsorted : List.Pairwise scoreGE (find_potential_buddies user repo limit ms) := by
    rcases find_shape user repo limit ms with hf | hf | ⟨n, hf⟩ <;> rw [hf]
    · exact List.Pairwise.nil
    · exact hranked
    · exact List.Pairwise.sublist (List.take_sublist _ _) hranked
  have heq : find_potential_buddies user repo (some k) ms
      = (find_potential_buddies user repo none ms).take k := by
    cases hu : user.id with
    | none => simp [find_potential_buddies, hu]
    | some uid =>
      by_cases h0 : uid = 0
      · simp [find_potential_buddies, hu, h0]
      · by_cases hc : (eligibleUsers repo).filterMap (fun u => u.id) = []
        · simp [find_potential_buddies, hu, h0, hc]
        · simp [find_potential_buddies, hu, h0, hc, hk0]
  exact ⟨hsorted, heq, by rw [heq]; exact List.length_take _ _⟩

theorem find_sorted_and_take_witness :
    List.Pairwise scoreGE (find_potential_buddies ⟨some 1, [], [], none, none⟩
        ⟨Except.ok [], Except.ok [], Except.ok [⟨some 2, [], [], none, none⟩],
          Except.ok [], Except.ok [], Except.ok [], fun _ => Except.error ()⟩ none 0) ∧
      find_potential_buddies ⟨some 1, [], [], none, none⟩
          ⟨Except.ok [], Except.ok [], Except.ok [⟨some 2, [], [], none, none⟩],
            Except.ok [], Except.ok [], Except.ok [], fun _ => Except.error ()⟩ (some 1) 0
        = (find_potential_buddies ⟨some 1, [], [], none, none⟩
            ⟨Except.ok [], Except.ok [], Except.ok [⟨some 2, [], [], none, none⟩],
              Except.ok [], Except.ok [], Except.ok [], fun _ => Except.error ()⟩ none 0).take 1 ∧
      (find_potential_buddies ⟨some 1, [], [], none, none⟩
          ⟨Except.ok [], Except.ok [], Except.ok [⟨some 2, [], [], none, none⟩],
            Except.ok [], Except.ok [], Except.ok [], fun _ => Except.error ()⟩ (some 1) 0).length
        = min 1 (find_potential_buddies ⟨some 1, [], [], none, none⟩
            ⟨Except.ok [], Except.ok [], Except.ok [⟨some 2, [], [], none, none⟩],
              Except.ok [], Except.ok [], Except.ok [], fun _ => Except.error ()⟩ none 0).length :=
  find_sorted_and_take _ _ none 0 1 (by decide)

/-- C4 counterexample: with one candidate in the pool, `limit = 0` returns
1 entry (Python's `if limit:` treats 0 as "no limit"), not
`min(0, pool size) = 0` as the claim requires for every integer k. -/
theorem find_limit_zero_cex :
    (find_potential_buddies ⟨some 1, [], [], none, none⟩
        ⟨Except.ok [], Except.ok [], Except.ok [⟨some 2, [], [], none, none⟩],
          Except.ok [], Except.ok [], Except.ok [], fun _ => Except.error ()⟩
        (some 0) 0).length = 1 ∧
      min 0 (find_potential_buddies ⟨some 1, [], [], none, none⟩
          ⟨Except.ok [], Except.ok [], Except.ok [⟨some 2, [], [], none, none⟩],
            Except.ok [], Except.ok [], Except.ok [], fun _ => Except.error ()⟩
          none 0).length = 0 :=
  ⟨by decide, by decide⟩

/-- C6: `min_score` is threaded through the signature but never read — the
output is identical for any two values of the parameter, run against the
same subject and repository responses. -/
theorem find_min_score_unused (user : Profile) (repo : RepoResponses)
    (limit : Option Nat) (ms1 ms2 : ℚ) :
    find_potential_buddies user repo limit ms1 = find_potential_buddies user repo limit ms2 := rfl

/-- C7: when the candidate-pool fetch itself fails, the function returns
the empty list (the exception is caught; in the embedding the function is
total, so no error escapes). -/
theorem find_pool_failure (user : Profile) (repo : RepoResponses)
    (limit : Option Nat) (ms : ℚ) (h : repo.users = Except.error ()) :
    find_potential_buddies user repo limit ms = [] := by
  have hp : poolUsers repo = [] := by
    unfold poolUsers
    rw [h]
  have he : eligibleUsers repo = [] := by
    unfold eligibleUsers
    rw [hp]
    split <;> rfl
  cases hu : user.id with
  | none => simp [find_potential_buddies, hu]
  | some uid =>
    by_cases h0 : uid = 0
    · simp [find_potential_buddies, hu, h0]
    · simp [find_potential_buddies, hu, h0, he]

theorem find_pool_failure_witness :
    find_potential_buddies ⟨some 1, [], [], none, none⟩
      ⟨Except.ok [], Except.ok [], Except.error (), Except.ok [], Except.ok [],
        Except.ok [], fun _ => Except.error ()⟩ none 0 = [] :=
  find_pool_failure _ _ none 0 rfl

/-- C8: when the batched approved-RSVP fetch fails during a ranking pass
(the subject id is truthy and the eligible pool has ids), the pass still
completes: the returned entries are exactly the eligible (enriched)
candidates, and every entry's score is computed with the activity factor
degraded to the neutral 0.05 (the empty count map looks every user up to
0, landing in the "both ≤ 2" tier). -/
theorem find_rsvp_failure (user : Profile) (uid : Int) (repo : RepoResponses) (ms : ℚ)
    (hid : user.id = some uid) (h0 : uid ≠ 0)
    (hne : ¬ (eligibleUsers repo).filterMap (fun u => u.id) = [])
    (hr : repo.rsvps = Except.error ()) :
    ((find_potential_buddies user repo none ms).map (fun e => e.user)).Perm
        (enrichedUsers repo) ∧
      find_potential_buddies user repo none ms
        = List.insertionSort scoreGE ((enrichedUsers repo).map
            (fun pu => ⟨pu, round2 ((baseFactors user pu + 0.05) * 100)⟩)) := by
  have hfind : find_potential_buddies user repo none ms = rankedBuddies user repo := by
    simp [find_potential_buddies, hid, h0, hne]
  have hcounts : countsFrom repo.rsvps = fun _ => 0 := by
    unfold countsFrom
    rw [hr]
  have hact : ∀ i1 i2 : Option Int,
      activityFactor (some (countsFrom repo.rsvps)) (some repo.rsvpCount) i1 i2 = 0.05 := by
    intro i1 i2
    rw [hcounts]
    show actFormula (lookupCount (fun _ => 0) i1) (lookupCount (fun _ => 0) i2) = 0.05
    have hl : ∀ j : Option Int, lookupCount (fun _ => 0) j = 0 := by
      intro j
      cases j <;> rfl
    rw [hl, hl]
    norm_num [actFormula]
  constructor
  · rw [hfind]
    have hperm : (rankedBuddies user repo).Perm (scoredBuddies user repo) :=
      List.perm_insertionSort scoreGE _
    have hmap := hperm.map (fun e => e.user)
    have hms : (scoredBuddies user repo).map (fun e => e.user) = enrichedUsers repo := by
      unfold scoredBuddies
      rw [List.map_map]
      exact List.map_id _
    rw [hms] at hmap
    exact hmap
  · rw [hfind]
    unfold rankedBuddies scoredBuddies
    have hscore : (fun pu => (⟨pu, calculate_buddy_score user pu (some repo.rsvpCount)
          (some (countsFrom repo.rsvps))⟩ : ScoredBuddy))
        = fun pu => ⟨pu, round2 ((baseFactors user pu + 0.05) * 100)⟩ := by
      funext pu
      simp only [calculate_buddy_score]
      rw [hact]
    rw [hscore]

theorem find_rsvp_failure_witness :
    ((find_potential_buddies ⟨some 1, [], [], none, none⟩
          ⟨Except.ok [], Except.ok [], Except.ok [⟨some 2, [], [], none, none⟩],
            Except.ok [], Except.ok [], Except.error (), fun _ => Except.error ()⟩
          none 0).map (fun e => e.user)).Perm
        (enrichedUsers ⟨Except.ok [], Except.ok [],
          Except.ok [⟨some 2, [], [], none, none⟩],
          Except.ok [], Except.ok [], Except.error (), fun _ => Except.error ()⟩) ∧
      find_potential_buddies ⟨some 1, [], [], none, none⟩
          ⟨Except.ok [], Except.ok [], Except.ok [⟨some 2, [], [], none, none⟩],
            Except.ok [], Except.ok [], Except.error (), fun _ => Except.error ()⟩
          none 0
        = List.insertionSort scoreGE ((enrichedUsers ⟨Except.ok [], Except.ok [],
            Except.ok [⟨some 2, [], [], none, none⟩],
            Except.ok [], Except.ok [], Except.error (), fun _ => Except.error ()⟩).map
            (fun pu => ⟨pu, round2 ((baseFactors ⟨some 1, [], [], none, none⟩ pu + 0.05) * 100)⟩)) :=
  find_rsvp_failure _ 1 _ 0 rfl (by decide) (by decide) rfl

/-- C9 counterexample: the scoring function itself performs no id check —
two profiles with the *same* id (1) are scored, and the call produces the
score 35.0 instead of a refusal. -/
theorem calculate_buddy_score_self_cex :
    calculate_buddy_score ⟨some 1, [], [], none, none⟩ ⟨some 1, [], [], none, none⟩
      none none = 35 := by
  unfold calculate_buddy_score baseFactors locationFactor
  have h1 : sportsFactor (extract_ids []) (extract_ids []) = 0.175 := by
    simp [sportsFactor, extract_ids, Finset.not_nonempty_empty]
  have h2 : goalsFactor (extract_ids []) (extract_ids []) = 0.125 := by
    simp [goalsFactor, extract_ids, Finset.not_nonempty_empty]
  have h3 : locCompare (normLoc none) (normLoc none) = 0.05 := by
    simp [locCompare, normLoc]
  have h4 : ageFactor none none = 0 := rfl
  have h5 : activityFactor none none (some 1) (some 1) = 0 := rfl
  rw [h1, h2, h3, h4, h5]
  unfold round2
  norm_num [round_eq]

/-- C9 (amended): the self-comparison refusal lives in the API layer, not
in the scoring function — the `create_buddy` route rejects a request whose
target id equals the caller's id before any score is computed, and
`find_potential_buddies` with a subject whose id is unresolvable (absent,
or the falsy 0) returns the empty list without performing a ranking pass;
`calculate_buddy_score` itself scores same-id profiles (see the
counterexample). -/
theorem refusal_guards (cu : Profile) (uid : Int) (crepo : CreateRepo)
    (u : Profile) (repo : RepoResponses) (limit : Option Nat) (ms : ℚ)
    (hid : cu.id = some uid) (h0 : uid ≠ 0)
    (hu : u.id = none ∨ u.id = some 0) :
    create_buddy cu uid crepo = Except.error CreateErr.selfBuddy ∧
      find_potential_buddies u repo limit ms = [] := by
  constructor
  · simp [create_buddy, hid, h0]
  · rcases hu with hu | hu <;> simp [find_potential_buddies, hu]

theorem refusal_guards_witness :
    create_buddy ⟨some 1, [], [], none, none⟩ 1
        ⟨Except.ok none, Except.ok [], Except.ok [], fun _ => Except.error (), Except.ok []⟩
      = Except.error CreateErr.selfBuddy ∧
      find_potential_buddies ⟨none, [], [], none, none⟩
        ⟨Except.ok [], Except.ok [], Except.ok [], Except.ok [], Except.ok [],
          Except.ok [], fun _ => Except.error ()⟩ none 0 = [] :=
  refusal_guards _ 1 _ _ _ none 0 rfl (by decide) (Or.inl rfl)

end Buddying
